import Mathlib

/-
Verification of the block abstraction layer in `python/ray/data/block.py`:
the `BlockAccessor` dispatch logic (`for_block`, `batch_to_block`,
`to_batch_format`), the `batch_format` configuration validator
(`_apply_batch_format`), `BlockMetadata` construction (`__post_init__`),
and the execution-stats builder (`_BlockExecStatsBuilder.build`).

Python runtime values relevant to the dispatch code are shallowly embedded
as the inductive `PyValue`; Python exceptions are embedded as the `Except`
error channel with `PyError` describing the exception class and message.
Functions of this file that call code living outside `python/ray/data/block.py`
(the Arrow and pandas block builders, the byte deserializer) are
parameterized by environment records supplying that external behavior.
-/

set_option autoImplicit false

namespace RayBlock

/-- Python exception values raised by the modelled code paths. The constructor
records the exception class and, where the claims depend on it, the message. -/
inductive PyError where
  | valueError (msg : String)
  | typeError (msg : String)
  | arrowConversionError (msg : String)
  | assertionError
  deriving DecidableEq, Repr

/-- Runtime Python values that the dispatch code in `block.py` distinguishes by
`isinstance` checks. Tabular payloads are modelled as named integer columns;
the dispatch logic never inspects the payloads, only the runtime type. -/
inductive PyValue where
  | ndarray (elems : List Int)
  | mapping (cols : List (String × List Int))
  | arrowTable (cols : List (String × List Int))
  | pandasDF (cols : List (String × List Int))
  | pyBytes (data : List Nat)
  | pyList (elems : List Int)
  | pyStr (s : String)
  | npInt64 (n : Int)
  | pyNone
  deriving DecidableEq, Repr

/-- Embedding of the `BlockType` enum (`block.py` lines 66-68). -/
inductive BlockType where
  | arrow
  | pandas
  deriving DecidableEq, Repr

/-- Rendering of a value by the Python `str` builtin, as interpolated into
error messages by `"{}".format(...)` and f-strings. -/
def PyValue.pyStrOf : PyValue → String
  | .ndarray xs => "array(" ++ toString xs ++ ")"
  | .mapping cols => toString cols
  | .arrowTable cols => "pyarrow.Table " ++ toString cols
  | .pandasDF cols => "DataFrame " ++ toString cols
  | .pyBytes ds => "b" ++ toString ds
  | .pyList xs => toString xs
  | .pyStr s => s
  | .npInt64 n => toString n
  | .pyNone => "None"

/-- Rendering of `type(value)` by the Python `str` builtin, as interpolated
into the `TypeError` message of `for_block`. -/
def PyValue.typeName : PyValue → String
  | .ndarray _ => "<class \x27numpy.ndarray\x27>"
  | .mapping _ => "<class \x27dict\x27>"
  | .arrowTable _ => "<class \x27pyarrow.lib.Table\x27>"
  | .pandasDF _ => "<class \x27pandas.core.frame.DataFrame\x27>"
  | .pyBytes _ => "<class \x27bytes\x27>"
  | .pyList _ => "<class \x27list\x27>"
  | .pyStr _ => "<class \x27str\x27>"
  | .npInt64 _ => "<class \x27numpy.int64\x27>"
  | .pyNone => "<class \x27NoneType\x27>"

/-- Modelled from the spec: `_truncated_repr` lives in
`ray.data._internal.util`, which is not under `src/`. The spec requires only
that error messages include the rendered, possibly truncated, representation
of the offending value, so it is modelled as the full rendering. -/
def _truncated_repr (v : PyValue) : String := v.pyStrOf

/-- The constant `VALID_BATCH_FORMATS` (`block.py` line 111). -/
def VALID_BATCH_FORMATS : List (Option String) :=
  [some "pandas", some "pyarrow", some "numpy", none]

/-- The constant `DEFAULT_BATCH_FORMAT` (`block.py` line 112). -/
def DEFAULT_BATCH_FORMAT : String := "numpy"

/-- Rendering of an optional string by the Python `repr` builtin, as used when
a Python list of strings and `None` is interpolated into an f-string. -/
def pyReprOptStr : Option String → String
  | none => "None"
  | some s => "\x27" ++ s ++ "\x27"

/-- Rendering of a Python list of optional strings by `repr`, as interpolated
into the error messages that enumerate `VALID_BATCH_FORMATS`. -/
def pyReprList (l : List (Option String)) : String :=
  "[" ++ String.intercalate ", " (l.map pyReprOptStr) ++ "]"

/-- Rendering of an optional string by the Python `str` builtin, used for the
direct f-string interpolation `f"... \x7bgiven_batch_format\x7d ..."`. -/
def pyStrOptStr : Option String → String
  | none => "None"
  | some s => s

/-- Embedding of `_apply_batch_format` (`block.py` lines 115-123): resolve
the sentinel `"default"` to `DEFAULT_BATCH_FORMAT`, then require membership
in `VALID_BATCH_FORMATS`, raising `ValueError` otherwise. -/
def _apply_batch_format (given_batch_format : Option String) :
    Except PyError (Option String) :=
  let g := if given_batch_format = some "default" then some DEFAULT_BATCH_FORMAT
           else given_batch_format
  if g ∈ VALID_BATCH_FORMATS then
    Except.ok g
  else
    Except.error (PyError.valueError
      ("The given batch format " ++ pyStrOptStr g ++
       " isn\x27t allowed (must be one of " ++ pyReprList VALID_BATCH_FORMATS ++ ")."))

/-- External conversion routines called by `batch_to_block` but defined
outside `block.py` (`ArrowBlockBuilder._table_from_pydict` and
`PandasBlockAccessor.numpy_to_block`, reached through
`batch_to_arrow_block` and `batch_to_pandas_block`). Either may raise; the
Arrow one in particular may raise `ArrowConversionError`. -/
structure BatchConvEnv where
  batch_to_arrow_block : List (String × List Int) → Except PyError PyValue
  batch_to_pandas_block : List (String × List Int) → Except PyError PyValue

/-- The `ValueError` message for a standalone numpy array
(`block.py` lines 376-381). -/
def standaloneNumpyArraysMsg (batch : PyValue) : String :=
  "Error validating " ++ _truncated_repr batch ++ ": Standalone numpy arrays are not " ++
  "allowed in Ray 2.5. Return a dict of field -> array, " ++
  "e.g., `\x7b\x27data\x27: array\x7d` instead of `array`."

/-- Embedding of `BlockAccessor.batch_to_block` (`block.py` lines 367-401):
reject a bare ndarray with `ValueError`; convert a mapping according to the
requested block type, attempting Arrow first when the type is unset or Arrow
and falling back to pandas on `ArrowConversionError` only when the type is
unset (the source also logs a one-time warning there, a side effect not
modelled); pass any other value through unchanged. -/
def batch_to_block (cls : BatchConvEnv) (batch : PyValue)
    (block_type : Option BlockType) : Except PyError PyValue :=
  match batch with
  | .ndarray _ =>
    Except.error (PyError.valueError (standaloneNumpyArraysMsg batch))
  | .mapping cols =>
    match block_type with
    | none | some BlockType.arrow =>
      match cls.batch_to_arrow_block cols with
      | Except.ok b => Except.ok b
      | Except.error (PyError.arrowConversionError m) =>
        if block_type = none then
          cls.batch_to_pandas_block cols
        else
          Except.error (PyError.arrowConversionError m)
      | Except.error e => Except.error e
    | some BlockType.pandas => cls.batch_to_pandas_block cols
  | _ => Except.ok batch

/-- Accessors returned by `for_block`: the Arrow-backed and pandas-backed
implementations, each wrapping the block value it was constructed from. -/
inductive PyAccessor where
  | arrowBlockAccessor (block : PyValue)
  | pandasBlockAccessor (block : PyValue)
  deriving DecidableEq, Repr

/-- External routine called by `for_block` but defined outside `block.py`:
`ArrowBlockAccessor.from_bytes` deserializes a byte string into the block
value wrapped by the returned Arrow accessor. -/
structure ForBlockEnv where
  from_bytes : List Nat → PyValue

/-- The `ValueError` message for a standalone Python list
(`block.py` lines 437-443). -/
def standalonePythonObjectsMsg (block : PyValue) : String :=
  "Error validating " ++ _truncated_repr block ++ ": Standalone Python objects are not " ++
  "allowed in Ray 2.5. To use Python objects in a dataset, " ++
  "wrap them in a dict of numpy arrays, e.g., " ++
  "return `\x7b\x27item\x27: batch\x7d` instead of just `batch`."

/-- The `TypeError` message of `for_block` (`block.py` line 445),
`"Not a block type: \x7b\x7d (\x7b\x7d)".format(block, type(block))`. -/
def notABlockTypeMsg (block : PyValue) : String :=
  "Not a block type: " ++ block.pyStrOf ++ " (" ++ block.typeName ++ ")"

/-- Embedding of `BlockAccessor.for_block` (`block.py` lines 417-445):
dispatch on the runtime type of the block value. The initial
`_check_pyarrow_version()` call is an import-level environment check assumed
to succeed. -/
def for_block (env : ForBlockEnv) (block : PyValue) : Except PyError PyAccessor :=
  match block with
  | .arrowTable _ => Except.ok (PyAccessor.arrowBlockAccessor block)
  | .pandasDF _ => Except.ok (PyAccessor.pandasBlockAccessor block)
  | .pyBytes data => Except.ok (PyAccessor.arrowBlockAccessor (env.from_bytes data))
  | .pyList _ => Except.error (PyError.valueError (standalonePythonObjectsMsg block))
  | _ => Except.error (PyError.typeError (notABlockTypeMsg block))

/-- A concrete implementation of the abstract `BlockAccessor` interface
(`block.py` lines 232-334) as seen by the base-class methods: the value each
conversion method (`to_block`, `to_pandas`, `to_arrow`, `to_numpy`) returns,
plus an optional override for `to_default`, which the base class implements
(returning `to_block()`) but a subclass may redefine. -/
structure BaseBlockAccessor where
  to_block : PyValue
  to_pandas : PyValue
  to_arrow : PyValue
  to_numpy : PyValue
  to_default_override : Option PyValue
  deriving DecidableEq, Repr

/-- Embedding of `BlockAccessor.to_default` (`block.py` lines 307-309): the
base-class body returns `self.to_block()`; a subclass override, when present,
takes effect instead. -/
def to_default (a : BaseBlockAccessor) : PyValue :=
  match a.to_default_override with
  | some v => v
  | none => a.to_block

/-- Embedding of `BlockAccessor.to_batch_format` (`block.py` lines 311-334):
dispatch on the batch-format tag, raising `ValueError` naming
`VALID_BATCH_FORMATS` for an unrecognized tag. -/
def to_batch_format (a : BaseBlockAccessor) (batch_format : Option String) :
    Except PyError PyValue :=
  match batch_format with
  | none => Except.ok a.to_block
  | some bf =>
    if bf = "default" ∨ bf = "native" then Except.ok (to_default a)
    else if bf = "pandas" then Except.ok a.to_pandas
    else if bf = "pyarrow" then Except.ok a.to_arrow
    else if bf = "numpy" then Except.ok a.to_numpy
    else Except.error (PyError.valueError
      ("The batch format must be one of " ++ pyReprList VALID_BATCH_FORMATS ++
       ", got: " ++ bf))

/-- A Python integer-like value supplied as `size_bytes`: either a plain `int`
or a numpy integer (which `isinstance(-, int)` rejects). -/
inductive PySizeBytes where
  | pyInt (n : Int)
  | npInt (n : Int)
  deriving DecidableEq, Repr

/-- Embedding of the `BlockExecStats` attribute record
(`block.py` lines 136-155). Clock readings are floats in the source,
modelled as rationals. -/
structure BlockExecStats where
  start_time_s : Option ℚ
  end_time_s : Option ℚ
  wall_time_s : Option ℚ
  udf_time_s : Option ℚ
  cpu_time_s : Option ℚ
  node_id : String
  max_rss_bytes : Nat
  task_idx : Option Nat
  deriving DecidableEq, Repr

/-- Embedding of `BlockExecStats.__init__` (`block.py` lines 145-155): all
timings start unset except `udf_time_s = 0`, `max_rss_bytes = 0`, and the node
id captured once from the ambient runtime context (passed in here). -/
def BlockExecStats.init (node_id : String) : BlockExecStats :=
  { start_time_s := none
    end_time_s := none
    wall_time_s := none
    udf_time_s := some 0
    cpu_time_s := none
    node_id := node_id
    max_rss_bytes := 0
    task_idx := none }

/-- Embedding of the `BlockMetadata` dataclass fields
(`block.py` lines 207-220), after `__post_init__` has run: `input_files` is a
plain list (never `None`). The schema payload is opaque to this file and
modelled as a string tag. -/
structure BlockMetadata where
  num_rows : Option Nat
  size_bytes : Option PySizeBytes
  schema : Option String
  input_files : List String
  exec_stats : Option BlockExecStats
  deriving DecidableEq, Repr

/-- Embedding of `BlockMetadata` construction through `__post_init__`
(`block.py` lines 222-228): normalize `input_files = None` to the empty list,
then assert that a present `size_bytes` is a plain `int` (a numpy integer
fails the `isinstance` check, raising `AssertionError`). -/
def BlockMetadata.make (num_rows : Option Nat) (size_bytes : Option PySizeBytes)
    (schema : Option String) (input_files : Option (List String))
    (exec_stats : Option BlockExecStats) : Except PyError BlockMetadata :=
  let files := match input_files with
    | none => []
    | some fs => fs
  match size_bytes with
  | some (PySizeBytes.npInt _) => Except.error PyError.assertionError
  | _ => Except.ok
      { num_rows := num_rows
        size_bytes := size_bytes
        schema := schema
        input_files := files
        exec_stats := exec_stats }

/-- Ambient readings taken inside `_BlockExecStatsBuilder.build`: the end
clock readings, the node id from the runtime context, whether the `resource`
module imported successfully (it is `None` on Windows), the
`ru_maxrss` reading of `resource.getrusage(resource.RUSAGE_SELF)` (a
kilobyte-scaled integer on Linux), and the current `rss` reported by
`psutil.Process(os.getpid()).memory_info()`. -/
structure BuilderEnv where
  end_time : ℚ
  end_cpu : ℚ
  node_id : String
  resource_available : Bool
  ru_maxrss : Nat
  psutil_rss : Nat

/-- Embedding of the `_BlockExecStatsBuilder` state captured at construction
(`block.py` lines 179-181): the start wall-clock and CPU-clock readings. -/
structure _BlockExecStatsBuilder where
  start_time : ℚ
  start_cpu : ℚ

/-- Embedding of `_BlockExecStatsBuilder.build` (`block.py` lines 183-202).
When the `resource` module is unavailable, `max_rss_bytes` is the current
psutil rss; otherwise it is `int(ru_maxrss * 1e3)`. For the integer readings
modelled here the float product `ru_maxrss * 1e3` is exact and its `int`
truncation is exactly `ru_maxrss * 1000`, which is how it is written below. -/
def _BlockExecStatsBuilder.build (self : _BlockExecStatsBuilder)
    (env : BuilderEnv) : BlockExecStats :=
  let stats := BlockExecStats.init env.node_id
  { stats with
    start_time_s := some self.start_time
    end_time_s := some env.end_time
    wall_time_s := some (env.end_time - self.start_time)
    cpu_time_s := some (env.end_cpu - self.start_cpu)
    max_rss_bytes :=
      if env.resource_available = false then env.psutil_rss
      else env.ru_maxrss * 1000 }

/-- Discriminator for the `isinstance(batch, np.ndarray)` check in
`batch_to_block`. -/
def PyValue.isNdarray : PyValue → Bool
  | .ndarray _ => true
  | _ => false

/-- Discriminator for the `isinstance(batch, collections.abc.Mapping)` check
in `batch_to_block`. -/
def PyValue.isMapping : PyValue → Bool
  | .mapping _ => true
  | _ => false

/-- True exactly for the runtime types that `for_block` handles before its
final `TypeError` branch: Arrow table, dataframe, bytes, and list. -/
def PyValue.handledByForBlock : PyValue → Bool
  | .arrowTable _ | .pandasDF _ | .pyBytes _ | .pyList _ => true
  | _ => false

/-- A conversion environment where Arrow conversion succeeds, building an
Arrow table from the columns; pandas conversion builds a dataframe. -/
def arrowOkEnv : BatchConvEnv where
  batch_to_arrow_block := fun cols => Except.ok (PyValue.arrowTable cols)
  batch_to_pandas_block := fun cols => Except.ok (PyValue.pandasDF cols)

/-- A conversion environment where Arrow conversion raises
`ArrowConversionError`; pandas conversion builds a dataframe. -/
def arrowFailEnv : BatchConvEnv where
  batch_to_arrow_block := fun _ => Except.error (PyError.arrowConversionError "cannot convert")
  batch_to_pandas_block := fun cols => Except.ok (PyValue.pandasDF cols)

/-- A concrete accessor that does not override `to_default`, used to witness
the dispatch theorems at an evaluable input. -/
def sampleAccessor : BaseBlockAccessor where
  to_block := PyValue.arrowTable [("x", [1, 2, 3])]
  to_pandas := PyValue.pandasDF [("x", [1, 2, 3])]
  to_arrow := PyValue.arrowTable [("x", [1, 2, 3])]
  to_numpy := PyValue.mapping [("x", [1, 2, 3])]
  to_default_override := none

/-- A concrete `for_block` environment whose byte deserializer rebuilds a
one-column Arrow table from the bytes. -/
def bytesForBlockEnv : ForBlockEnv where
  from_bytes := fun data => PyValue.arrowTable [("b", data.map Int.ofNat)]

/-- Build-time environment of a platform where the `resource` module is
available. -/
def linuxBuilderEnv : BuilderEnv :=
  { end_time := 10, end_cpu := 4, node_id := "node-1",
    resource_available := true, ru_maxrss := 2048, psutil_rss := 123456 }

/-- Build-time environment of a platform where the `resource` module failed
to import. -/
def windowsBuilderEnv : BuilderEnv :=
  { end_time := 10, end_cpu := 4, node_id := "node-2",
    resource_available := false, ru_maxrss := 0, psutil_rss := 123456 }

/-- A concrete stats builder whose start readings are fixed. -/
def statsBuilder0 : _BlockExecStatsBuilder :=
  { start_time := 3, start_cpu := 1 }

/-- Claim C1: for a mapping batch, `batch_to_block` with the pandas type
requested returns the pandas conversion with no Arrow attempt (the result is
the pandas conversion for every possible Arrow-conversion behavior); with no
type or the Arrow type requested it first attempts Arrow conversion,
returning the Arrow block when that succeeds; on an `ArrowConversionError` it
falls back to the pandas conversion when no type was requested and propagates
the error when the Arrow type was explicitly requested. -/
theorem batch_to_block_mapping_dispatch (cls : BatchConvEnv)
    (cols : List (String × List Int)) :
    batch_to_block cls (PyValue.mapping cols) (some BlockType.pandas)
      = cls.batch_to_pandas_block cols
  ∧ (∀ b, cls.batch_to_arrow_block cols = Except.ok b →
      batch_to_block cls (PyValue.mapping cols) none = Except.ok b
      ∧ batch_to_block cls (PyValue.mapping cols) (some BlockType.arrow) = Except.ok b)
  ∧ (∀ m, cls.batch_to_arrow_block cols = Except.error (PyError.arrowConversionError m) →
      batch_to_block cls (PyValue.mapping cols) none = cls.batch_to_pandas_block cols
      ∧ batch_to_block cls (PyValue.mapping cols) (some BlockType.arrow)
          = Except.error (PyError.arrowConversionError m)) := by
  refine ⟨rfl, ?_, ?_⟩
  · intro b h
    constructor <;> simp [batch_to_block, h]
  · intro m h
    constructor <;> simp [batch_to_block, h]

/-- Witness for C1 at the concrete mapping batch from the spec example,
under an environment where Arrow conversion succeeds and one where it
fails. -/
theorem batch_to_block_mapping_dispatch_witness :
    batch_to_block arrowOkEnv (PyValue.mapping [("x", [1, 2, 3])]) none
      = Except.ok (PyValue.arrowTable [("x", [1, 2, 3])])
  ∧ batch_to_block arrowFailEnv (PyValue.mapping [("x", [1, 2, 3])]) none
      = Except.ok (PyValue.pandasDF [("x", [1, 2, 3])])
  ∧ batch_to_block arrowFailEnv (PyValue.mapping [("x", [1, 2, 3])]) (some BlockType.arrow)
      = Except.error (PyError.arrowConversionError "cannot convert")
  ∧ batch_to_block arrowOkEnv (PyValue.mapping [("x", [1, 2, 3])]) (some BlockType.pandas)
      = Except.ok (PyValue.pandasDF [("x", [1, 2, 3])]) := by
  refine ⟨?_, ?_, ?_, ?_⟩
  · exact ((batch_to_block_mapping_dispatch arrowOkEnv [("x", [1, 2, 3])]).2.1 _ rfl).1
  · exact ((batch_to_block_mapping_dispatch arrowFailEnv [("x", [1, 2, 3])]).2.2 _ rfl).1.trans rfl
  · exact ((batch_to_block_mapping_dispatch arrowFailEnv [("x", [1, 2, 3])]).2.2 _ rfl).2
  · exact (batch_to_block_mapping_dispatch arrowOkEnv [("x", [1, 2, 3])]).1.trans rfl

/-- Claim C2: `for_block` returns the Arrow accessor for an Arrow table and
the pandas accessor for a dataframe; a bytes value is deserialized (through
`ArrowBlockAccessor.from_bytes`) into the Arrow accessor; a list raises
`ValueError` instructing the caller to wrap the sequence in a dict of named
arrays; every other runtime type raises `TypeError` whose message names the
type of the offending value. -/
theorem for_block_dispatch (env : ForBlockEnv) :
    (∀ cols, for_block env (PyValue.arrowTable cols)
        = Except.ok (PyAccessor.arrowBlockAccessor (PyValue.arrowTable cols)))
  ∧ (∀ cols, for_block env (PyValue.pandasDF cols)
        = Except.ok (PyAccessor.pandasBlockAccessor (PyValue.pandasDF cols)))
  ∧ (∀ data, for_block env (PyValue.pyBytes data)
        = Except.ok (PyAccessor.arrowBlockAccessor (env.from_bytes data)))
  ∧ (∀ elems, for_block env (PyValue.pyList elems)
        = Except.error (PyError.valueError (standalonePythonObjectsMsg (PyValue.pyList elems))))
  ∧ standalonePythonObjectsMsg (PyValue.pyList [0])
      = "Error validating [0]: Standalone Python objects are not allowed in Ray 2.5. To use Python objects in a dataset, wrap them in a dict of numpy arrays, e.g., return `\x7b\x27item\x27: batch\x7d` instead of just `batch`."
  ∧ (∀ v : PyValue, v.handledByForBlock = false →
      for_block env v = Except.error (PyError.typeError (notABlockTypeMsg v)))
  ∧ (∀ v : PyValue, notABlockTypeMsg v
      = "Not a block type: " ++ v.pyStrOf ++ " (" ++ v.typeName ++ ")") := by
  refine ⟨fun _ => rfl, fun _ => rfl, fun _ => rfl, fun _ => rfl, rfl, ?_, fun _ => rfl⟩
  intro v h
  cases v <;> simp_all [PyValue.handledByForBlock, for_block]

/-- Witness for C2 at a concrete non-block value, a numpy scalar. -/
theorem for_block_dispatch_witness :
    for_block bytesForBlockEnv (PyValue.npInt64 7)
      = Except.error (PyError.typeError (notABlockTypeMsg (PyValue.npInt64 7)))
  ∧ notABlockTypeMsg (PyValue.npInt64 7)
      = "Not a block type: 7 (<class \x27numpy.int64\x27>)" :=
  ⟨(for_block_dispatch bytesForBlockEnv).2.2.2.2.2.1 (PyValue.npInt64 7) rfl, rfl⟩

/-- Claim C3: `to_batch_format` dispatches by format tag — `None` to the
native block, `"default"` and `"native"` to the default format, `"pandas"`,
`"pyarrow"` and `"numpy"` to the respective conversions — and any other tag
raises `ValueError` whose message names the full allowed set
`VALID_BATCH_FORMATS`. -/
theorem to_batch_format_dispatch (a : BaseBlockAccessor) :
    to_batch_format a none = Except.ok a.to_block
  ∧ to_batch_format a (some "default") = Except.ok (to_default a)
  ∧ to_batch_format a (some "native") = Except.ok (to_default a)
  ∧ to_batch_format a (some "pandas") = Except.ok a.to_pandas
  ∧ to_batch_format a (some "pyarrow") = Except.ok a.to_arrow
  ∧ to_batch_format a (some "numpy") = Except.ok a.to_numpy
  ∧ pyReprList VALID_BATCH_FORMATS = "[\x27pandas\x27, \x27pyarrow\x27, \x27numpy\x27, None]"
  ∧ (∀ bf : String, bf ≠ "default" → bf ≠ "native" → bf ≠ "pandas" →
      bf ≠ "pyarrow" → bf ≠ "numpy" →
      to_batch_format a (some bf) = Except.error (PyError.valueError
        ("The batch format must be one of " ++ pyReprList VALID_BATCH_FORMATS ++
         ", got: " ++ bf))) := by
  refine ⟨rfl, rfl, rfl, rfl, rfl, rfl, rfl, ?_⟩
  intro bf h1 h2 h3 h4 h5
  simp [to_batch_format, h1, h2, h3, h4, h5]

/-- Witness for C3 at the concrete unrecognized tag `"jsonl"`. -/
theorem to_batch_format_dispatch_witness :
    to_batch_format sampleAccessor (some "jsonl") = Except.error (PyError.valueError
      ("The batch format must be one of " ++ pyReprList VALID_BATCH_FORMATS ++
       ", got: " ++ "jsonl")) :=
  (to_batch_format_dispatch sampleAccessor).2.2.2.2.2.2.2 "jsonl"
    (by decide) (by decide) (by decide) (by decide) (by decide)

/-- Claim C9: the base-class `to_default` returns `to_block()`, so on every
accessor that does not override it, `to_batch_format` applied to `None`,
`"default"` and `"native"` all return `to_block()`. -/
theorem to_default_base (a : BaseBlockAccessor) (h : a.to_default_override = none) :
    to_default a = a.to_block
  ∧ to_batch_format a none = Except.ok a.to_block
  ∧ to_batch_format a (some "default") = Except.ok a.to_block
  ∧ to_batch_format a (some "native") = Except.ok a.to_block := by
  have hd : to_default a = a.to_block := by simp [to_default, h]
  exact ⟨hd, rfl, by rw [show to_batch_format a (some "default") = Except.ok (to_default a) from rfl, hd],
    by rw [show to_batch_format a (some "native") = Except.ok (to_default a) from rfl, hd]⟩

/-- Witness for C9 at a concrete accessor with no `to_default` override. -/
theorem to_default_base_witness :
    to_default sampleAccessor = sampleAccessor.to_block
  ∧ to_batch_format sampleAccessor (some "native") = Except.ok sampleAccessor.to_block :=
  ⟨(to_default_base sampleAccessor rfl).1, (to_default_base sampleAccessor rfl).2.2.2⟩

/-- Claim C4 counterexample: contrary to the claim, `_apply_batch_format`
rejects `"native"` with a `ValueError`. Only the sentinel `"default"` is
resolved to the default format, and `"native"` is not a member of
`VALID_BATCH_FORMATS = ["pandas", "pyarrow", "numpy", None]`. -/
theorem apply_batch_format_rejects_native :
    _apply_batch_format (some "native")
      = Except.error (PyError.valueError
          ("The given batch format native isn\x27t allowed (must be one of " ++
           pyReprList VALID_BATCH_FORMATS ++ ").")) := rfl

/-- Claim C4 (amended): the validator accepts exactly the values `None`,
`"default"` (resolved to the default format `"numpy"`), `"pandas"`,
`"pyarrow"` and `"numpy"`, and rejects every other value — `"native"`
included — with a `ValueError` whose message enumerates
`VALID_BATCH_FORMATS`. -/
theorem apply_batch_format_spec :
    _apply_batch_format none = Except.ok none
  ∧ _apply_batch_format (some "default") = Except.ok (some "numpy")
  ∧ _apply_batch_format (some "pandas") = Except.ok (some "pandas")
  ∧ _apply_batch_format (some "pyarrow") = Except.ok (some "pyarrow")
  ∧ _apply_batch_format (some "numpy") = Except.ok (some "numpy")
  ∧ pyReprList VALID_BATCH_FORMATS = "[\x27pandas\x27, \x27pyarrow\x27, \x27numpy\x27, None]"
  ∧ (∀ s : String, s ≠ "default" → s ≠ "pandas" → s ≠ "pyarrow" → s ≠ "numpy" →
      _apply_batch_format (some s) = Except.error (PyError.valueError
        ("The given batch format " ++ s ++ " isn\x27t allowed (must be one of " ++
         pyReprList VALID_BATCH_FORMATS ++ ").")))
  := by
  refine ⟨rfl, rfl, rfl, rfl, rfl, rfl, ?_⟩
  intro s h1 h2 h3 h4
  simp [_apply_batch_format, VALID_BATCH_FORMATS, pyStrOptStr, h1, h2, h3, h4]

/-- Witness for the amended C4 at the concrete rejected value `"native"`. -/
theorem apply_batch_format_spec_witness :
    _apply_batch_format (some "native") = Except.error (PyError.valueError
      ("The given batch format " ++ "native" ++ " isn\x27t allowed (must be one of " ++
       pyReprList VALID_BATCH_FORMATS ++ ").")) :=
  apply_batch_format_spec.2.2.2.2.2.2 "native"
    (by decide) (by decide) (by decide) (by decide)

/-- Claim C5: a bare ndarray batch is rejected by `batch_to_block` with a
`ValueError` (not a `TypeError`), whatever block type was requested; the
message includes the rendered representation of the value and instructs the
caller to wrap the array in a named-column mapping. -/
theorem batch_to_block_rejects_ndarray (cls : BatchConvEnv) (elems : List Int)
    (block_type : Option BlockType) :
    batch_to_block cls (PyValue.ndarray elems) block_type
      = Except.error (PyError.valueError (standaloneNumpyArraysMsg (PyValue.ndarray elems)))
  ∧ standaloneNumpyArraysMsg (PyValue.ndarray [1, 2, 3])
      = "Error validating array([1, 2, 3]): Standalone numpy arrays are not allowed in Ray 2.5. Return a dict of field -> array, e.g., `\x7b\x27data\x27: array\x7d` instead of `array`." :=
  ⟨rfl, rfl⟩

/-- Claim C6: `BlockMetadata` construction accepts a present `size_bytes`
exactly when it is a plain `int` — a numpy integer value fails the
`isinstance` assertion — while `None` `size_bytes`, `num_rows` and `schema`
are all accepted as valid unknown states. -/
theorem blockMetadata_size_bytes_check (nr : Option Nat) (sch : Option String)
    (fs : Option (List String)) (es : Option BlockExecStats) :
    (∀ n : Int, BlockMetadata.make nr (some (PySizeBytes.pyInt n)) sch fs es
        = Except.ok { num_rows := nr, size_bytes := some (PySizeBytes.pyInt n),
                      schema := sch,
                      input_files := match fs with | none => [] | some l => l,
                      exec_stats := es })
  ∧ (∀ n : Int, BlockMetadata.make nr (some (PySizeBytes.npInt n)) sch fs es
        = Except.error PyError.assertionError)
  ∧ BlockMetadata.make none none none fs es
      = Except.ok { num_rows := none, size_bytes := none, schema := none,
                    input_files := match fs with | none => [] | some l => l,
                    exec_stats := es } :=
  ⟨fun _ => rfl, fun _ => rfl, rfl⟩

/-- Claim C7: `BlockMetadata` construction normalizes `input_files = None` to
the empty list and keeps a supplied list as given. -/
theorem blockMetadata_input_files_normalized (nr : Option Nat)
    (sb : Option PySizeBytes) (sch : Option String) (es : Option BlockExecStats) :
    (∀ md, BlockMetadata.make nr sb sch none es = Except.ok md → md.input_files = [])
  ∧ (∀ fs md, BlockMetadata.make nr sb sch (some fs) es = Except.ok md
      → md.input_files = fs) := by
  constructor
  · intro md h
    rcases sb with _ | p
    · injection h with h2
      rw [← h2]
    · cases p with
      | pyInt n => injection h with h2; rw [← h2]
      | npInt n => exact Except.noConfusion h
  · intro fs md h
    rcases sb with _ | p
    · injection h with h2
      rw [← h2]
    · cases p with
      | pyInt n => injection h with h2; rw [← h2]
      | npInt n => exact Except.noConfusion h

/-- Witness for C7 at concrete metadata constructions. -/
theorem blockMetadata_input_files_normalized_witness :
    ({ num_rows := some 3, size_bytes := some (PySizeBytes.pyInt 24),
       schema := some "int64", input_files := [],
       exec_stats := none } : BlockMetadata).input_files = []
  ∧ ({ num_rows := some 3, size_bytes := none, schema := none,
       input_files := ["a.csv"], exec_stats := none } : BlockMetadata).input_files
      = ["a.csv"] :=
  ⟨(blockMetadata_input_files_normalized (some 3) (some (PySizeBytes.pyInt 24))
      (some "int64") none).1 _ rfl,
   (blockMetadata_input_files_normalized (some 3) none none none).2 ["a.csv"] _ rfl⟩

/-- Claim C8: when the `resource` module is available, `build` sets
`max_rss_bytes` to the `ru_maxrss` reading multiplied by 1000 — the source
computes `int(ru_maxrss * 1e3)`, a factor of 1000, not 1024, and for the
integer readings modelled here the truncation is exact — and when the module
is unavailable it uses the current rss reported by psutil instead. -/
theorem build_max_rss (b : _BlockExecStatsBuilder) (env : BuilderEnv) :
    (env.resource_available = true →
      (b.build env).max_rss_bytes = env.ru_maxrss * 1000)
  ∧ (env.resource_available = false →
      (b.build env).max_rss_bytes = env.psutil_rss) := by
  constructor <;> intro h <;>
    simp [_BlockExecStatsBuilder.build, BlockExecStats.init, h]

/-- Witness for C8 on concrete environments for both platforms. -/
theorem build_max_rss_witness :
    (statsBuilder0.build linuxBuilderEnv).max_rss_bytes = 2048 * 1000
  ∧ (statsBuilder0.build windowsBuilderEnv).max_rss_bytes = 123456 :=
  ⟨(build_max_rss statsBuilder0 linuxBuilderEnv).1 rfl,
   (build_max_rss statsBuilder0 windowsBuilderEnv).2 rfl⟩

/-- Claim C10: any batch value that is neither an ndarray nor a mapping is
returned unchanged by `batch_to_block`, whatever block type was requested —
lists, strings and other non-block values pass through without validation. -/
theorem batch_to_block_passthrough (cls : BatchConvEnv) (v : PyValue)
    (bt : Option BlockType) (h1 : v.isNdarray = false)
    (h2 : v.isMapping = false) :
    batch_to_block cls v bt = Except.ok v := by
  cases v <;> simp_all [PyValue.isNdarray, PyValue.isMapping, batch_to_block]

/-- Witness for C10 at a concrete string and a concrete list. -/
theorem batch_to_block_passthrough_witness :
    PyValue.isNdarray (PyValue.pyStr "hello") = false
  ∧ PyValue.isMapping (PyValue.pyStr "hello") = false
  ∧ batch_to_block arrowOkEnv (PyValue.pyStr "hello") none
      = Except.ok (PyValue.pyStr "hello")
  ∧ batch_to_block arrowFailEnv (PyValue.pyList [1, 2]) (some BlockType.arrow)
      = Except.ok (PyValue.pyList [1, 2]) :=
  ⟨rfl, rfl, batch_to_block_passthrough arrowOkEnv _ none rfl rfl,
   batch_to_block_passthrough arrowFailEnv _ _ rfl rfl⟩

end RayBlock
